import Mathlib

/-!
# Verification of the ioh-robodog-webrtc streaming core

Shallow embedding of the media-plane core of the `ioh-robodog-webrtc`
repository (C++): the RTSP ingest pipeline (`src/rtsp_pipeline.cpp`),
the WebRTC peer sessions (`src/peer_connection.cpp`), the peer registry
(`src/webrtc_server.cpp`) and the WebSocket signaling endpoint
(`src/signaling_server.cpp`).  Machine integers are modelled as `Nat`/`Int`
with explicit reductions modulo `2^32` / `2^64` where the C++ types wrap.
Definitions are translated from the source; theorems settle the spec
claims against them.
-/

namespace StreamServer

/-! ## Configuration (`src/config.hpp`)

Only the fields the verified operations read are carried.  C++ `int`
fields are modelled as `Int` (the YAML loader performs no range check),
`std::string` as `String`, `bool` as `Bool`. -/

/-- Fields of `ss::VideoConfig` (`config.hpp`): bitrate fields used by
`RtspPipeline::set_bitrate` and the pipeline builder. -/
structure VideoConfig where
  bitrate_kbps : Int
  max_bitrate_kbps : Int
  min_bitrate_kbps : Int
  deriving Repr, DecidableEq

/-- Fields of `ss::RtspConfig` (`config.hpp`): reconnection knobs read (or, for
`reconnect_max_attempts`, merely stored) by `RtspPipeline`. -/
structure RtspConfig where
  url : String
  reconnect_interval_ms : Int
  reconnect_max_attempts : Int
  deriving Repr, DecidableEq

/-- Fields of `ss::EncodingConfig` (`config.hpp`): mode selectors read by
`RtspPipeline::build_pipeline`. -/
structure EncodingConfig where
  hw_encode : Bool
  passthrough : Bool
  deriving Repr, DecidableEq

/-! ## Signaling endpoint (`src/signaling_server.cpp`)

`SignalingServer::on_client_message` parses the incoming text frame with
nlohmann::json and dispatches on the `type` field.  We embed a
successfully parsed message as the record of exactly the fields the
handler reads: `msg.value("type","")`, `msg.value("sdp","")`,
`msg["data"].value("candidate","")`, `msg["data"].value("sdpMid","0")`.
A field absent from the JSON object is `none`; `Option.getD` mirrors
`json::value(key, default)`.  The observable behaviour of the handler is the
list of effects it performs, in order. -/

/-- A parsed JSON signaling message, restricted to the fields
`on_client_message` reads.  `kbps` records a numeric `kbps` field when
present (the ABR hint shape of the spec); the handler never reads it. -/
structure JsonMsg where
  type : Option String
  sdp : Option String
  dataCandidate : Option String
  dataSdpMid : Option String
  kbps : Option Int
  deriving Repr, DecidableEq

/-- Observable effects of `SignalingServer::on_client_message`. -/
inductive SigEffect where
  /-- Call `webrtc_server_.handle_answer(peer_id, sdp)` -/
  | handleAnswer (sdp : String)
  /-- Call `webrtc_server_.handle_candidate(peer_id, candidate, mid)` -/
  | handleCandidate (candidate : String) (mid : String)
  /-- Reply with a single pong frame on the socket -/
  | sendPong
  /-- Invocation of `bitrate_cb_` — the registered ABR callback.  Listed so that
  its absence from every handler run is a statement, not a gap. -/
  | invokeBitrateCb (kbps : Int)
  /-- Debug-log the unknown message type and ignore the frame -/
  | debugLogUnknown (type : String)
  deriving Repr, DecidableEq

/-- Translation of `SignalingServer::on_client_message`
(`signaling_server.cpp:159-193`),
for a frame that parsed as JSON.  Translated branch by branch:
`answer` → `handle_answer` when `sdp` nonempty; `candidate` →
`handle_candidate` when `candidate` nonempty, `sdpMid` defaulting to
`"0"`; `ping` → pong reply; every other `type` → debug log, ignored. -/
def on_client_message (msg : JsonMsg) : List SigEffect :=
  let type := msg.type.getD ""
  if type = "answer" then
    let sdp := msg.sdp.getD ""
    if sdp ≠ "" then [SigEffect.handleAnswer sdp] else []
  else if type = "candidate" then
    let candidate := msg.dataCandidate.getD ""
    let mid := msg.dataSdpMid.getD "0"
    if candidate ≠ "" then [SigEffect.handleCandidate candidate mid] else []
  else if type = "ping" then
    [SigEffect.sendPong]
  else
    [SigEffect.debugLogUnknown type]

/-! ## Ingest pipeline: bitrate control (`src/rtsp_pipeline.cpp`) -/

/-- C++ conversion of a (possibly negative) `int` value to `guint`
(unsigned 32-bit), as performed by the `(guint)` casts in
`RtspPipeline::set_bitrate`. -/
def guintOfInt (x : Int) : Nat :=
  (x % (2 : Int) ^ 32).toNat

/-- The single `g_object_set` the pipeline may perform on its encoder
element in response to `set_bitrate`. -/
inductive BitrateAction where
  /-- nothing applied (`!encoder_ || !running_`) -/
  | noop
  /-- Property write `g_object_set(encoder_, "bitrate", (guint)(clamped * 1000))` —
  `nvv4l2h264enc`, bits per second -/
  | hwSet (bits_per_sec : Nat)
  /-- Property write `g_object_set(encoder_, "bitrate", (guint)clamped)` — `x264enc`,
  kbps -/
  | swSet (kbps : Nat)
  deriving Repr, DecidableEq

/-- The pipeline fields `set_bitrate` reads: `encoder_ != nullptr`,
`running_.load()`, `is_hw_encode_`. -/
structure PipelineCtl where
  encoder_present : Bool
  running : Bool
  is_hw_encode : Bool
  deriving Repr, DecidableEq

/-- Translation of `RtspPipeline::set_bitrate` (`rtsp_pipeline.cpp:51-67`): early return
when no encoder element or not running; otherwise clamp
`std::max(min, std::min(kbps, max))` and apply in the unit of the backend. -/
def set_bitrate (cfg : VideoConfig) (p : PipelineCtl) (bitrate_kbps : Int) :
    BitrateAction :=
  if !p.encoder_present || !p.running then BitrateAction.noop
  else
    let clamped := max cfg.min_bitrate_kbps (min bitrate_kbps cfg.max_bitrate_kbps)
    if p.is_hw_encode then BitrateAction.hwSet (guintOfInt (clamped * 1000))
    else BitrateAction.swSet (guintOfInt clamped)

/-- The clamp formula of `set_bitrate`, named for the statements. -/
def clampBitrate (cfg : VideoConfig) (k : Int) : Int :=
  max cfg.min_bitrate_kbps (min k cfg.max_bitrate_kbps)

/-! ## Ingest pipeline: graph construction (`RtspPipeline::build_pipeline`)

`build_pipeline` assembles a textual GStreamer description and launches
it; afterwards `gst_bin_get_by_name(pipeline_, "enc")` fetches the
encoder element for dynamic bitrate control.  We embed the description
as the ordered list of elements it instantiates, each with its `name=`
property when the description sets one.  Only the test branch exists
solely under `ENABLE_TEST_MODE`, and the hardware branches solely under
`JETSON_PLATFORM`; both build flags are parameters. -/

/-- One element of a launch description: its factory kind and its
optional `name=` property. -/
structure GstElem where
  kind : String
  name : Option String
  deriving Repr, DecidableEq

/-- The element list of the description built by
`RtspPipeline::build_pipeline` (`rtsp_pipeline.cpp:74-188`) for the
given build flags (`ENABLE_TEST_MODE`, `JETSON_PLATFORM`) and config.
Branches in source order: test pattern (no RTSP URL under test build),
passthrough, re-encode (HW/HW, HW/SW, SW/SW). -/
def build_pipeline_elems (enable_test_mode jetson_platform : Bool)
    (rtsp : RtspConfig) (enc : EncodingConfig) : List GstElem :=
  let use_test_source := enable_test_mode && rtsp.url = ""
  if use_test_source then
    [⟨"videotestsrc", none⟩] ++
    (if jetson_platform && enc.hw_encode then
      [⟨"nvvidconv", none⟩, ⟨"nvv4l2h264enc", none⟩]
     else
      [⟨"x264enc", none⟩]) ++
    [⟨"h264parse", none⟩, ⟨"appsink", some "sink"⟩]
  else if enc.passthrough then
    [⟨"rtspsrc", none⟩, ⟨"rtph264depay", none⟩, ⟨"h264parse", none⟩,
     ⟨"appsink", some "sink"⟩]
  else
    [⟨"rtspsrc", none⟩, ⟨"rtph264depay", none⟩, ⟨"h264parse", none⟩] ++
    (if jetson_platform && enc.hw_encode then
      [⟨"nvv4l2decoder", none⟩, ⟨"nvv4l2h264enc", some "enc"⟩]
     else if jetson_platform then
      [⟨"nvv4l2decoder", none⟩, ⟨"nvvidconv", none⟩, ⟨"x264enc", some "enc"⟩]
     else
      [⟨"avdec_h264", none⟩, ⟨"videoconvert", none⟩, ⟨"x264enc", some "enc"⟩]) ++
    [⟨"h264parse", none⟩, ⟨"appsink", some "sink"⟩]

/-- Lookup `gst_bin_get_by_name`: first element carrying the requested name. -/
def get_by_name (elems : List GstElem) (n : String) : Option GstElem :=
  elems.find? (fun e => e.name = some n)

/-- Assignment `encoder_ = gst_bin_get_by_name(GST_BIN(pipeline_), "enc")`
(`rtsp_pipeline.cpp:206`): whether the built graph exposes an encoder
for dynamic bitrate control. -/
def encoder_present_after_build (enable_test_mode jetson_platform : Bool)
    (rtsp : RtspConfig) (enc : EncodingConfig) : Bool :=
  (get_by_name (build_pipeline_elems enable_test_mode jetson_platform rtsp enc)
    "enc").isSome

/-- The assignments to `is_hw_encode_` inside `build_pipeline`: set to
`true` only in the Jetson hardware-encode re-encode branch, `false` in
the other re-encode branches, untouched (initial value `false`) in the
test and passthrough branches. -/
def is_hw_encode_after_build (enable_test_mode jetson_platform : Bool)
    (rtsp : RtspConfig) (enc : EncodingConfig) : Bool :=
  let use_test_source := enable_test_mode && rtsp.url = ""
  if use_test_source then false
  else if enc.passthrough then false
  else jetson_platform && enc.hw_encode

/-! ## Peer session (`src/peer_connection.cpp`)

`PeerConnection` allocates its SSRC from the process-wide counter
`static std::atomic<uint32_t> next_ssrc_{42}` via `fetch_add(1)`
(`peer_connection.cpp:7,15`).  `fetch_add` returns the previous value and
wraps modulo `2^32` (unsigned arithmetic). -/

/-- The SSRC assigned by the `n`-th `PeerConnection` construction
(counting from 0): the value `next_ssrc_` held before that
`fetch_add(1)` of that construction, starting at 42 and wrapping mod `2^32`. -/
def ssrcOfIndex (n : Nat) : Nat :=
  (42 + n) % 2 ^ 32

/-- The value of `next_ssrc_` after `n` constructions. -/
def ssrcCounter (n : Nat) : Nat :=
  (42 + n) % 2 ^ 32

/-- The RTP timestamp `send_h264_nal` writes
(`peer_connection.cpp:179-180`):
`static_cast<uint32_t>((timestamp_us * 90000) / 1000000)`, with the
multiplication in `uint64_t` (wrapping mod `2^64`) and the cast
reducing mod `2^32`.  `rtc::H264RtpPacketizer::defaultClockRate` is
90000 (90 kHz). -/
def rtpTimestamp (timestamp_us : Nat) : Nat :=
  (timestamp_us * 90000) % 2 ^ 64 / 1000000 % 2 ^ 32

/-- The 90 kHz tick count before the `uint32_t` cast (still after the
`uint64_t` multiplication). -/
def rtpTicks64 (timestamp_us : Nat) : Nat :=
  (timestamp_us * 90000) % 2 ^ 64 / 1000000

/-- Formula of the spec for the RTP timestamp, written from the words of
the spec for comparison with the `rtpTimestamp` of the code: "round(pts_us *
90_000 / 1_000_000) mod 2³²", with round-half-up rounding of the exact
rational value. -/
def specRtpTimestamp (timestamp_us : Nat) : Nat :=
  (timestamp_us * 90000 + 500000) / 1000000 % 2 ^ 32

/-- The `PeerConnection` fields `send_h264_nal` reads and writes:
`connected_`, `video_track_` (null or not), `video_track_->isOpen()`,
`rtp_config_->timestamp`, and the stats counters. -/
structure PeerState where
  connected : Bool
  has_track : Bool
  track_open : Bool
  rtp_timestamp : Nat
  rtp_packets_sent : Nat
  bytes_sent : Nat
  deriving Repr, DecidableEq

/-- Translation of `PeerConnection::send_h264_nal`
(`peer_connection.cpp:172-195`).
Early return when `!connected_.load() || !video_track_ ||
!video_track_->isOpen()`.  Otherwise the RTP timestamp is written
first; `video_track_->send` may throw (`send_throws`), in which case
the catch block logs and the stats stay untouched — the timestamp
write has already happened. -/
def send_h264_nal (s : PeerState) (size : Nat) (timestamp_us : Nat)
    (send_throws : Bool) : PeerState :=
  if !s.connected || !s.has_track || !s.track_open then s
  else
    let s1 := { s with rtp_timestamp := rtpTimestamp timestamp_us }
    if send_throws then s1
    else { s1 with
      rtp_packets_sent := s1.rtp_packets_sent + 1
      bytes_sent := s1.bytes_sent + size }

/-! ## Peer registry (`src/webrtc_server.cpp`)

The observable map of the registry is its key set (`std::unordered_map`
keyed by `peer_id`); a `PeerConnection` value is carried only where a
claim reads it.  All mutations happen under `peers_mutex_`, so the
sequential trace semantics below is the serialization the code itself performs. -/

/-- Insertion into the `unordered_map` key set:
`peers_[peer_id] = peer` adds the key when absent, otherwise replaces
the mapped value (key set unchanged). -/
def mapInsert (peers : List String) (id : String) : List String :=
  if id ∈ peers then peers else id :: peers

/-- The `WebRtcServer` fields `create_peer` reads:
the peer-id key set and `config_.webrtc.max_peers` (a C++ `int`). -/
structure RegistryState where
  peers : List String
  max_peers : Int
  deriving Repr, DecidableEq

/-- Translation of `WebRtcServer::create_peer` (`webrtc_server.cpp:25-46`),
under the
lock.  `fresh_id` is the `generate_peer_id()` result; `ctor_ok` is
whether `std::make_shared<PeerConnection>(...)` returns normally.
Refusal when `(int)peers_.size() >= max_peers` returns `""` without
touching the map; a constructor exception is caught and also returns
`""` without touching the map. -/
def create_peer (s : RegistryState) (fresh_id : String) (ctor_ok : Bool) :
    String × RegistryState :=
  if s.max_peers ≤ (s.peers.length : Int) then ("", s)
  else if ctor_ok then
    (fresh_id, { s with peers := mapInsert s.peers fresh_id })
  else ("", s)

/-- Translation of `WebRtcServer::remove_peer` (`webrtc_server.cpp:80-87`): erase the
key when present. -/
def remove_peer (s : RegistryState) (id : String) : RegistryState :=
  { s with peers := s.peers.filter (fun p => p ≠ id) }

/-- One pass of the body of `WebRtcServer::cleanup_loop`
(`webrtc_server.cpp:139-146`): erase every peer whose `is_closed()`
holds at that observation. -/
def cleanup_pass (s : RegistryState) (closed : String → Bool) : RegistryState :=
  { s with peers := s.peers.filter (fun p => !closed p) }

/-- Translation of `WebRtcServer::stop` (`webrtc_server.cpp:104-114`): `peers_.clear()`. -/
def clear_peers (s : RegistryState) : RegistryState :=
  { s with peers := [] }

/-- The operations that mutate the peer map, each holding
`peers_mutex_` for its duration. -/
inductive RegistryOp where
  | create (fresh_id : String) (ctor_ok : Bool)
  | remove (id : String)
  | cleanup (closed : String → Bool)
  | clear

/-- Apply one registry operation (`create_peer` discards the returned
id here; the id is examined where a claim needs it). -/
def applyRegistryOp (s : RegistryState) (op : RegistryOp) : RegistryState :=
  match op with
  | RegistryOp.create fresh_id ctor_ok => (create_peer s fresh_id ctor_ok).2
  | RegistryOp.remove id => remove_peer s id
  | RegistryOp.cleanup closed => cleanup_pass s closed
  | RegistryOp.clear => clear_peers s

/-- The registry state after a sequence of operations from the initial
state (empty map, `webrtc_server.cpp:19`). -/
def runRegistry (max_peers : Int) (ops : List RegistryOp) : RegistryState :=
  ops.foldl applyRegistryOp { peers := [], max_peers := max_peers }

/-! ### Broadcast (`WebRtcServer::broadcast_nal`) -/

/-- A snapshot entry of the peer map as `broadcast_nal` observes it
under `peers_mutex_`: the key and the `is_connected()` of the value at the
observation point. -/
structure PeerEntry where
  id : String
  connected : Bool
  deriving Repr, DecidableEq

/-- A `send_h264_nal` invocation performed by the broadcast loop. -/
structure SendCall where
  id : String
  size : Nat
  timestamp_us : Nat
  deriving Repr, DecidableEq

/-- Translation of `WebRtcServer::broadcast_nal` (`webrtc_server.cpp:89-96`): under
the lock, iterate the map; each peer with `is_connected()` is handed
the buffer via `send_h264_nal`.  Returns the sequence of send calls
performed. -/
def broadcast_nal (peers : List PeerEntry) (size : Nat) (timestamp_us : Nat) :
    List SendCall :=
  match peers with
  | [] => []
  | p :: rest =>
    if p.connected then
      ⟨p.id, size, timestamp_us⟩ :: broadcast_nal rest size timestamp_us
    else broadcast_nal rest size timestamp_us

/-! ## Pipeline stop and supervision (`src/rtsp_pipeline.cpp`) -/

/-- The `RtspPipeline` fields `stop` touches: the two atomics, the
GStreamer element pointers, and the worker thread handle. -/
structure PipeLifecycle where
  stop_requested : Bool
  running : Bool
  pipeline_present : Bool
  appsink_present : Bool
  encoder_present : Bool
  thread_joinable : Bool
  deriving Repr, DecidableEq

/-- Translation of `RtspPipeline::stop` (`rtsp_pipeline.cpp:31-49`), statement by
statement: set `stop_requested_`, clear `running_`; if `pipeline_`,
drive it to `GST_STATE_NULL` (no field change); if joinable, join the
worker; if `pipeline_`, unref and null out `pipeline_`, `appsink_`,
`encoder_`. -/
def pipeline_stop (s : PipeLifecycle) : PipeLifecycle :=
  let s1 := { s with stop_requested := true, running := false }
  let s2 := if s1.thread_joinable then { s1 with thread_joinable := false } else s1
  if s2.pipeline_present then
    { s2 with pipeline_present := false, appsink_present := false,
              encoder_present := false }
  else s2

/-! ### Supervisor worker (`RtspPipeline::pipeline_thread`)

`pipeline_thread` loops while `!stop_requested_`.  Every fault path —
`build_pipeline` throwing, `gst_element_set_state` failing, or the bus
loop ending on `ERROR`/`EOS` — calls `attempt_reconnect()` and
continues the outer loop; `attempt_reconnect` (`rtsp_pipeline.cpp:
370-387`) returns immediately when stop was requested and otherwise
increments `stats_.reconnect_count` and sleeps.  No statement of either
function reads `config_.rtsp.reconnect_max_attempts`; the embedding
takes the config to make that visible. -/

/-- How one outer-loop iteration of `pipeline_thread` ends. -/
inductive SessionEnd where
  /-- a fault (`build_pipeline` exception, `PLAYING` failure, bus
  `ERROR` or `EOS`) with shutdown not requested: the worker calls
  `attempt_reconnect` and loops. -/
  | fault
  /-- Shutdown: `stop_requested_` observed (at the loop head, in the bus loop, or
  inside `attempt_reconnect` before its increment): the worker exits. -/
  | stopped

/-- Run of `RtspPipeline::pipeline_thread` over a schedule of
outer-loop iteration outcomes, returning the final
`stats_.reconnect_count` and whether the worker has exited.  The
worker leaves the loop only through `stop_requested_`; faults
increment the reconnect count and re-enter `Building` regardless of
`cfg.reconnect_max_attempts`, which no branch consults. -/
def pipeline_thread_run (cfg : RtspConfig) (count : Nat)
    (schedule : List SessionEnd) : Nat × Bool :=
  match schedule with
  | [] => (count, false)
  | SessionEnd.fault :: rest => pipeline_thread_run cfg (count + 1) rest
  | SessionEnd.stopped :: _ => (count, true)

/-! ## Helper lemmas -/

/-- Inserting a key grows the key set by at most one. -/
lemma mapInsert_length_le (peers : List String) (id : String) :
    (mapInsert peers id).length ≤ peers.length + 1 := by
  unfold mapInsert
  split_ifs <;> simp

/-- No registry operation writes `max_peers`. -/
lemma applyRegistryOp_max_peers (s : RegistryState) (op : RegistryOp) :
    (applyRegistryOp s op).max_peers = s.max_peers := by
  cases op with
  | create fresh_id ctor_ok =>
    simp only [applyRegistryOp, create_peer]
    split_ifs <;> rfl
  | remove id => rfl
  | cleanup closed => rfl
  | clear => rfl

/-- Every registry operation preserves the size bound. -/
lemma applyRegistryOp_length (s : RegistryState) (op : RegistryOp)
    (h : (s.peers.length : Int) ≤ s.max_peers) :
    ((applyRegistryOp s op).peers.length : Int) ≤ s.max_peers := by
  cases op with
  | create fresh_id ctor_ok =>
    simp only [applyRegistryOp, create_peer]
    split_ifs with h1 h2
    · exact h
    · have hlen : ((mapInsert s.peers fresh_id).length : Int) ≤
          (s.peers.length : Int) + 1 := by
        exact_mod_cast mapInsert_length_le s.peers fresh_id
      simp only
      omega
    · exact h
  | remove id =>
    have hlen : (s.peers.filter (fun p => p ≠ id)).length ≤ s.peers.length :=
      List.length_filter_le _ _
    have : ((s.peers.filter (fun p => p ≠ id)).length : Int) ≤
        (s.peers.length : Int) := by exact_mod_cast hlen
    simp only [applyRegistryOp, remove_peer]
    omega
  | cleanup closed =>
    have hlen : (s.peers.filter (fun p => !closed p)).length ≤ s.peers.length :=
      List.length_filter_le _ _
    have : ((s.peers.filter (fun p => !closed p)).length : Int) ≤
        (s.peers.length : Int) := by exact_mod_cast hlen
    simp only [applyRegistryOp, cleanup_pass]
    omega
  | clear =>
    simp only [applyRegistryOp, clear_peers, List.length_nil]
    omega

/-- Folding registry operations never writes `max_peers`. -/
lemma foldl_registry_max_peers (ops : List RegistryOp) (s : RegistryState) :
    (ops.foldl applyRegistryOp s).max_peers = s.max_peers := by
  induction ops generalizing s with
  | nil => rfl
  | cons op rest ih =>
    simp only [List.foldl_cons]
    rw [ih, applyRegistryOp_max_peers]

/-- The size bound is inductive along any operation sequence. -/
lemma foldl_registry_length (ops : List RegistryOp) (s : RegistryState)
    (h : (s.peers.length : Int) ≤ s.max_peers) :
    ((ops.foldl applyRegistryOp s).peers.length : Int) ≤
      (ops.foldl applyRegistryOp s).max_peers := by
  induction ops generalizing s with
  | nil => simpa using h
  | cons op rest ih =>
    simp only [List.foldl_cons]
    apply ih
    have hstep := applyRegistryOp_length s op h
    rwa [applyRegistryOp_max_peers]

/-- In test mode (empty URL under a test build) and in passthrough mode
the launch description names no element `enc`, so
`gst_bin_get_by_name(..., "enc")` comes back null. -/
lemma encoder_absent_of_test_or_passthrough (et j : Bool) (rtsp : RtspConfig)
    (enc : EncodingConfig)
    (h : (et && rtsp.url = "") = true ∨
         ((et && rtsp.url = "") = false ∧ enc.passthrough = true)) :
    encoder_present_after_build et j rtsp enc = false := by
  obtain ⟨url, rim, rma⟩ := rtsp
  obtain ⟨hw, pt⟩ := enc
  rcases h with h | ⟨h, hp⟩
  · simp only [Bool.and_eq_true, decide_eq_true_eq] at h
    obtain ⟨het, hurl⟩ := h
    subst het
    subst hurl
    cases j <;> cases hw <;> rfl
  · replace hp : pt = true := hp
    subst hp
    simp only [encoder_present_after_build, build_pipeline_elems, get_by_name, h,
      Bool.false_eq_true, if_false, if_true]
    rfl

/-- In re-encode mode the launch description names the encoder `enc`,
so the pipeline holds an encoder handle. -/
lemma encoder_present_of_reencode (et j : Bool) (rtsp : RtspConfig)
    (enc : EncodingConfig)
    (h1 : (et && rtsp.url = "") = false) (h2 : enc.passthrough = false) :
    encoder_present_after_build et j rtsp enc = true := by
  obtain ⟨url, rim, rma⟩ := rtsp
  obtain ⟨hw, pt⟩ := enc
  replace h2 : pt = false := h2
  subst h2
  simp only [encoder_present_after_build, build_pipeline_elems, get_by_name, h1,
    Bool.false_eq_true, if_false]
  cases j <;> cases hw <;> rfl

/-- In re-encode mode `is_hw_encode_` ends up `JETSON_PLATFORM &&
hw_encode`. -/
lemma is_hw_encode_of_reencode (et j : Bool) (rtsp : RtspConfig)
    (enc : EncodingConfig)
    (h1 : (et && rtsp.url = "") = false) (h2 : enc.passthrough = false) :
    is_hw_encode_after_build et j rtsp enc = (j && enc.hw_encode) := by
  simp only [is_hw_encode_after_build, h1, h2, Bool.false_eq_true, if_false]

/-- With a sane configuration (nonnegative minimum, maximum at most
4 Gbit/s in kbps) the clamped value and its scaling by 1000 both fit in
`guint`, so the casts are value-preserving. -/
lemma guint_clamp_eq (cfg : VideoConfig) (k : Int)
    (hmin : 0 ≤ cfg.min_bitrate_kbps)
    (hminmax : cfg.min_bitrate_kbps ≤ cfg.max_bitrate_kbps)
    (hmax : cfg.max_bitrate_kbps ≤ 4000000) :
    guintOfInt (clampBitrate cfg k * 1000) = (clampBitrate cfg k).toNat * 1000 ∧
    guintOfInt (clampBitrate cfg k) = (clampBitrate cfg k).toNat := by
  have h0 : 0 ≤ clampBitrate cfg k := le_trans hmin (le_max_left _ _)
  have hub : clampBitrate cfg k ≤ 4000000 := by
    unfold clampBitrate
    rcases le_total cfg.min_bitrate_kbps (min k cfg.max_bitrate_kbps) with h | h
    · rw [max_eq_right h]
      exact le_trans (min_le_right _ _) hmax
    · rw [max_eq_left h]
      exact le_trans hminmax hmax
  have hpow : ((2 : Int) ^ 32) = 4294967296 := by norm_num
  constructor
  · unfold guintOfInt
    rw [hpow]
    omega
  · unfold guintOfInt
    rw [hpow]
    omega

/-! ## Claim theorems -/

/-- **C2** — With a nonnegative configured cap, every state the registry
reaches from its initial empty map through any sequence of `create_peer`,
`remove_peer`, cleanup passes and `stop` satisfies `|peers| ≤ max_peers`;
and a `create_peer` call made while `|peers| = max_peers` returns the
empty-string refusal sentinel and leaves the map unchanged. -/
theorem c2_peer_cap_invariant (max_peers : Int) (ops : List RegistryOp)
    (s : RegistryState) (fresh_id : String) (ctor_ok : Bool)
    (hmax : 0 ≤ max_peers)
    (hfull : (s.peers.length : Int) = s.max_peers) :
    ((runRegistry max_peers ops).peers.length : Int) ≤ max_peers ∧
    create_peer s fresh_id ctor_ok = ("", s) := by
  constructor
  · have h0 : ((({ peers := [], max_peers := max_peers } :
        RegistryState)).peers.length : Int) ≤ max_peers := by
      simpa using hmax
    have hinv := foldl_registry_length ops
      { peers := [], max_peers := max_peers } h0
    have hm := foldl_registry_max_peers ops
      { peers := [], max_peers := max_peers }
    unfold runRegistry
    rw [hm] at hinv
    exact hinv
  · unfold create_peer
    rw [if_pos hfull.ge]

/-- Witness for C2 at `max_peers = 2`, one admission, and a full
one-slot registry. -/
theorem c2_peer_cap_invariant_witness :
    0 ≤ (2 : Int) ∧
    ((({ peers := ["x"], max_peers := 1 } : RegistryState)).peers.length : Int) =
      ({ peers := ["x"], max_peers := 1 } : RegistryState).max_peers ∧
    (((runRegistry 2 [RegistryOp.create "a" true]).peers.length : Int) ≤ 2 ∧
     create_peer { peers := ["x"], max_peers := 1 } "y" true =
       ("", { peers := ["x"], max_peers := 1 })) :=
  ⟨by decide, by decide,
   c2_peer_cap_invariant 2 [RegistryOp.create "a" true]
     { peers := ["x"], max_peers := 1 } "y" true (by decide) (by decide)⟩

/-- **C10** — A `PeerConnection` constructor exception is caught:
`create_peer` then returns the same empty-string sentinel as admission
refusal and leaves the map unchanged, so the returned id is identical in
both failure cases and the caller cannot distinguish them. -/
theorem c10_ctor_failure_indistinguishable (s t : RegistryState)
    (fresh_id other_id : String) (ctor_ok : Bool)
    (hfull : t.max_peers ≤ (t.peers.length : Int)) :
    create_peer s fresh_id false = ("", s) ∧
    create_peer t other_id ctor_ok = ("", t) ∧
    (create_peer s fresh_id false).1 = (create_peer t other_id ctor_ok).1 := by
  have h1 : create_peer s fresh_id false = ("", s) := by
    unfold create_peer
    split_ifs with hc hb
    · rfl
    · exact absurd hb (by simp)
    · rfl
  have h2 : create_peer t other_id ctor_ok = ("", t) := by
    unfold create_peer
    rw [if_pos hfull]
  exact ⟨h1, h2, by rw [h1, h2]⟩

/-- Witness for C10: a non-full registry with a failing constructor and
a full registry refusal return the same sentinel. -/
theorem c10_ctor_failure_indistinguishable_witness :
    ({ peers := ["x"], max_peers := 1 } : RegistryState).max_peers ≤
      ((({ peers := ["x"], max_peers := 1 } : RegistryState)).peers.length : Int) ∧
    (create_peer { peers := [], max_peers := 4 } "a" false =
       ("", { peers := [], max_peers := 4 }) ∧
     create_peer { peers := ["x"], max_peers := 1 } "b" true =
       ("", { peers := ["x"], max_peers := 1 }) ∧
     (create_peer { peers := [], max_peers := 4 } "a" false).1 =
       (create_peer { peers := ["x"], max_peers := 1 } "b" true).1) :=
  ⟨by decide,
   c10_ctor_failure_indistinguishable { peers := [], max_peers := 4 }
     { peers := ["x"], max_peers := 1 } "a" "b" true (by decide)⟩

/-- **C7** — `broadcast_nal` performs a send for exactly the peers whose
`is_connected()` holds in the snapshot observed under the registry lock:
the invocation list is the connected sublist in map order, and a send
call occurs for an id if and only if some snapshot entry with that id is
connected. -/
theorem c7_broadcast_exactly_connected (peers : List PeerEntry)
    (size timestamp_us : Nat) :
    broadcast_nal peers size timestamp_us =
      (peers.filter (fun p => p.connected)).map
        (fun p => ⟨p.id, size, timestamp_us⟩) ∧
    ∀ c : SendCall, c ∈ broadcast_nal peers size timestamp_us ↔
      ∃ p ∈ peers, p.connected = true ∧ c = ⟨p.id, size, timestamp_us⟩ := by
  have hfilter : broadcast_nal peers size timestamp_us =
      (peers.filter (fun p => p.connected)).map
        (fun p => ⟨p.id, size, timestamp_us⟩) := by
    induction peers with
    | nil => rfl
    | cons p rest ih =>
      by_cases hp : p.connected <;>
        simp [broadcast_nal, hp, ih]
  refine ⟨hfilter, fun c => ?_⟩
  rw [hfilter]
  simp only [List.mem_map, List.mem_filter]
  constructor
  · rintro ⟨p, ⟨hmem, hconn⟩, hc⟩
    exact ⟨p, hmem, hconn, hc.symm⟩
  · rintro ⟨p, hmem, hconn, hc⟩
    exact ⟨p, ⟨hmem, hconn⟩, hc.symm⟩

/-- **C8** — `send_h264_nal` on a session that is not connected or whose
video track is not open returns without error and changes nothing: the
state (in particular the RTP timestamp, `rtp_packets_sent` and
`bytes_sent`) is returned untouched. -/
theorem c8_send_noop_when_not_ready (s : PeerState)
    (size timestamp_us : Nat) (send_throws : Bool)
    (h : s.connected = false ∨ s.track_open = false) :
    send_h264_nal s size timestamp_us send_throws = s ∧
    (send_h264_nal s size timestamp_us send_throws).rtp_timestamp =
      s.rtp_timestamp ∧
    (send_h264_nal s size timestamp_us send_throws).rtp_packets_sent =
      s.rtp_packets_sent ∧
    (send_h264_nal s size timestamp_us send_throws).bytes_sent =
      s.bytes_sent := by
  have hs : send_h264_nal s size timestamp_us send_throws = s := by
    unfold send_h264_nal
    rcases h with h | h <;> rw [h] <;> simp
  exact ⟨hs, by rw [hs], by rw [hs], by rw [hs]⟩

/-- Witness for C8 on a disconnected session with nonzero stats. -/
theorem c8_send_noop_when_not_ready_witness :
    ((⟨false, true, true, 7, 3, 9⟩ : PeerState).connected = false ∨
     (⟨false, true, true, 7, 3, 9⟩ : PeerState).track_open = false) ∧
    (send_h264_nal (⟨false, true, true, 7, 3, 9⟩ : PeerState) 5 11 false =
       (⟨false, true, true, 7, 3, 9⟩ : PeerState) ∧
     (send_h264_nal (⟨false, true, true, 7, 3, 9⟩ : PeerState) 5 11
        false).rtp_timestamp = 7 ∧
     (send_h264_nal (⟨false, true, true, 7, 3, 9⟩ : PeerState) 5 11
        false).rtp_packets_sent = 3 ∧
     (send_h264_nal (⟨false, true, true, 7, 3, 9⟩ : PeerState) 5 11
        false).bytes_sent = 9) :=
  ⟨Or.inl rfl,
   c8_send_noop_when_not_ready (⟨false, true, true, 7, 3, 9⟩ : PeerState)
     5 11 false (Or.inl rfl)⟩

/-- **C9** — Calling `stop()` twice is equivalent to calling it once: the
second call reproduces the same terminal state, in which the worker is
joined, the graph is torn down and the pipeline is not running. -/
theorem c9_stop_idempotent (s : PipeLifecycle) :
    pipeline_stop (pipeline_stop s) = pipeline_stop s ∧
    (pipeline_stop s).stop_requested = true ∧
    (pipeline_stop s).running = false ∧
    (pipeline_stop s).thread_joinable = false ∧
    (pipeline_stop s).pipeline_present = false := by
  obtain ⟨a, b, c, d, e, f⟩ := s
  cases a <;> cases b <;> cases c <;> cases d <;> cases e <;> cases f <;> decide

/-- **C1** (counterexample) — A received frame parsing to
`type = "bitrate"`, `kbps = 12000` is NOT forwarded to the registered
bitrate callback: the handler hits only the unknown-type branch and
performs no callback invocation. -/
theorem c1_bitrate_not_forwarded_counterexample :
    on_client_message ⟨some "bitrate", none, none, none, some 12000⟩ =
      [SigEffect.debugLogUnknown "bitrate"] ∧
    SigEffect.invokeBitrateCb 12000 ∉
      on_client_message ⟨some "bitrate", none, none, none, some 12000⟩ := by
  decide

/-- **C1** (amended) — Every bitrate-typed frame falls into the
unknown-type branch of `on_client_message`: it is debug-logged and
ignored, and the registered bitrate callback is never invoked by the
signaling endpoint.  When `set_bitrate` is invoked directly with a hint
(as `main` wires the callback), config `{min:500, max:8000}` yields an
encoder setting of 8000 for hint 12000, 500 for 100, and 2000 for
2000. -/
theorem c1_bitrate_message_ignored (sdp candidate mid : Option String)
    (kbps : Option Int) :
    on_client_message ⟨some "bitrate", sdp, candidate, mid, kbps⟩ =
      [SigEffect.debugLogUnknown "bitrate"] ∧
    (∀ n : Int, SigEffect.invokeBitrateCb n ∉
      on_client_message ⟨some "bitrate", sdp, candidate, mid, kbps⟩) ∧
    set_bitrate ⟨4000, 8000, 500⟩ ⟨true, true, false⟩ 12000 =
      BitrateAction.swSet 8000 ∧
    set_bitrate ⟨4000, 8000, 500⟩ ⟨true, true, false⟩ 100 =
      BitrateAction.swSet 500 ∧
    set_bitrate ⟨4000, 8000, 500⟩ ⟨true, true, false⟩ 2000 =
      BitrateAction.swSet 2000 := by
  have h1 : on_client_message ⟨some "bitrate", sdp, candidate, mid, kbps⟩ =
      [SigEffect.debugLogUnknown "bitrate"] := by
    simp [on_client_message]
  refine ⟨h1, ?_, by decide, by decide, by decide⟩
  intro n
  rw [h1]
  simp

/-- **C3** — Contrary to the spec (and to the config comment
`reconnect_max_attempts = 0  // 0 = unlimited`, which implies a nonzero
value bounds the retries), the supervisor worker never consults
`reconnect_max_attempts`: its outcome is independent of the configured
value, and with `reconnect_max_attempts = 1` the worker absorbs two
faults, reaching `reconnect_count = 2` while still looping instead of
exiting after the first fault. -/
theorem c3_reconnect_ignores_max_attempts :
    (∀ (cfg cfg2 : RtspConfig) (count : Nat) (schedule : List SessionEnd),
      pipeline_thread_run cfg count schedule =
        pipeline_thread_run cfg2 count schedule) ∧
    pipeline_thread_run ⟨"rtsp://camera", 3000, 1⟩ 0
      [SessionEnd.fault, SessionEnd.fault] = (2, false) := by
  constructor
  · intro cfg cfg2 count schedule
    induction schedule generalizing count with
    | nil => rfl
    | cons e rest ih =>
      cases e with
      | fault => exact ih (count + 1)
      | stopped => rfl
  · rfl

/-- **C4** (counterexample) — The RTP timestamp written by
`send_h264_nal` is the truncating division, not the rounding the claim
states: at `pts_us = 11` the code writes 0 while the claimed value
`round(11 * 90000 / 1000000)` is 1; and across the `2^32` wrap the
written timestamps decrease (pts 47721858844 → 4294967295, pts
47721858845 → 0) even though `pts_us` increases. -/
theorem c4_rtp_timestamp_counterexample :
    (send_h264_nal ⟨true, true, true, 0, 0, 0⟩ 5 11 false).rtp_timestamp = 0 ∧
    specRtpTimestamp 11 = 1 ∧
    (send_h264_nal ⟨true, true, true, 0, 0, 0⟩ 5 47721858844
      false).rtp_timestamp = 4294967295 ∧
    (send_h264_nal ⟨true, true, true, 0, 0, 0⟩ 5 47721858845
      false).rtp_timestamp = 0 := by
  decide

/-- **C4** (amended) — For every NAL sent by a connected session with an
open track, the RTP timestamp written to the packetization config equals
`floor(pts_us * 90000 / 1000000) mod 2^32` (the multiplication itself in
64-bit arithmetic), and these timestamps are non-decreasing in `pts_us`
as long as the 90 kHz tick count stays below the `2^32` wrap (and the
64-bit product below `2^64`). -/
theorem c4_rtp_timestamp_floor_mono (s : PeerState)
    (size pts p1 p2 : Nat) (send_throws : Bool)
    (hconn : s.connected = true) (htrack : s.has_track = true)
    (hopen : s.track_open = true)
    (h12 : p1 ≤ p2) (h64 : p2 * 90000 < 2 ^ 64)
    (h32 : rtpTicks64 p2 < 2 ^ 32) :
    (send_h264_nal s size pts send_throws).rtp_timestamp = rtpTimestamp pts ∧
    rtpTimestamp pts = rtpTicks64 pts % 2 ^ 32 ∧
    rtpTimestamp p1 ≤ rtpTimestamp p2 := by
  refine ⟨?_, rfl, ?_⟩
  · cases send_throws <;>
      simp [send_h264_nal, hconn, htrack, hopen]
  · have hm1 : p1 * 90000 ≤ p2 * 90000 := Nat.mul_le_mul_right _ h12
    have he2 : p2 * 90000 % 2 ^ 64 = p2 * 90000 := Nat.mod_eq_of_lt h64
    have he1 : p1 * 90000 % 2 ^ 64 = p1 * 90000 :=
      Nat.mod_eq_of_lt (lt_of_le_of_lt hm1 h64)
    have hticks : rtpTicks64 p1 ≤ rtpTicks64 p2 := by
      unfold rtpTicks64
      rw [he1, he2]
      exact Nat.div_le_div_right hm1
    have h32a : rtpTicks64 p1 < 2 ^ 32 := lt_of_le_of_lt hticks h32
    show rtpTicks64 p1 % 2 ^ 32 ≤ rtpTicks64 p2 % 2 ^ 32
    rw [Nat.mod_eq_of_lt h32a, Nat.mod_eq_of_lt h32]
    exact hticks

/-- Witness for the amended C4 on a connected session at pts 11 and the
pair 1 s ≤ 2 s. -/
theorem c4_rtp_timestamp_floor_mono_witness :
    (1000000 : Nat) ≤ 2000000 ∧ 2000000 * 90000 < 2 ^ 64 ∧
    rtpTicks64 2000000 < 2 ^ 32 ∧
    ((send_h264_nal ⟨true, true, true, 0, 0, 0⟩ 5 11 false).rtp_timestamp =
       rtpTimestamp 11 ∧
     rtpTimestamp 11 = rtpTicks64 11 % 2 ^ 32 ∧
     rtpTimestamp 1000000 ≤ rtpTimestamp 2000000) :=
  ⟨by decide, by decide, by decide,
   c4_rtp_timestamp_floor_mono ⟨true, true, true, 0, 0, 0⟩ 5 11 1000000 2000000
     false rfl rfl rfl (by decide) (by decide) (by decide)⟩

/-- **C5** — `set_bitrate(k)` is a no-op in test and passthrough modes
(the built graph names no encoder element) and on a non-running
pipeline; in re-encode modes on a running pipeline the effective
encoder setting is `clamp(k, min_bitrate_kbps, max_bitrate_kbps)`,
expressed as `clamped * 1000` bits/s on the hardware backend and as
`clamped` kbps on the software backend. -/
theorem c5_set_bitrate_clamped (et j : Bool) (rtsp : RtspConfig)
    (enc : EncodingConfig) (cfg : VideoConfig) (p : PipelineCtl) (k : Int)
    (r ihw : Bool)
    (hmin : 0 ≤ cfg.min_bitrate_kbps)
    (hminmax : cfg.min_bitrate_kbps ≤ cfg.max_bitrate_kbps)
    (hmax : cfg.max_bitrate_kbps ≤ 4000000) :
    ((et && rtsp.url = "") = true ∨
     ((et && rtsp.url = "") = false ∧ enc.passthrough = true) →
      set_bitrate cfg ⟨encoder_present_after_build et j rtsp enc, r, ihw⟩ k =
        BitrateAction.noop) ∧
    (p.running = false → set_bitrate cfg p k = BitrateAction.noop) ∧
    ((et && rtsp.url = "") = false → enc.passthrough = false →
      set_bitrate cfg
        ⟨encoder_present_after_build et j rtsp enc, true,
         is_hw_encode_after_build et j rtsp enc⟩ k =
        (if j && enc.hw_encode then
          BitrateAction.hwSet ((clampBitrate cfg k).toNat * 1000)
         else
          BitrateAction.swSet (clampBitrate cfg k).toNat)) := by
  refine ⟨?_, ?_, ?_⟩
  · intro hmode
    rw [encoder_absent_of_test_or_passthrough et j rtsp enc hmode]
    simp [set_bitrate]
  · intro hr
    simp [set_bitrate, hr]
  · intro h1 h2
    rw [encoder_present_of_reencode et j rtsp enc h1 h2,
      is_hw_encode_of_reencode et j rtsp enc h1 h2]
    have hg := guint_clamp_eq cfg k hmin hminmax hmax
    unfold clampBitrate at hg
    by_cases hj : (j && enc.hw_encode) = true <;>
      simp [set_bitrate, hj, hg.1, hg.2, clampBitrate]

/-- Witness for C5 in software re-encode mode with config
`{min:500, max:8000, bitrate:4000}` and hint `k = 12000`. -/
theorem c5_set_bitrate_clamped_witness :
    0 ≤ (500 : Int) ∧ (500 : Int) ≤ 8000 ∧ (8000 : Int) ≤ 4000000 ∧
    (((false && (⟨"rtsp://cam", 3000, 0⟩ : RtspConfig).url = "") = true ∨
      ((false && (⟨"rtsp://cam", 3000, 0⟩ : RtspConfig).url = "") = false ∧
        (⟨false, false⟩ : EncodingConfig).passthrough = true) →
      set_bitrate ⟨4000, 8000, 500⟩
        ⟨encoder_present_after_build false false ⟨"rtsp://cam", 3000, 0⟩
           ⟨false, false⟩, true, true⟩ 12000 = BitrateAction.noop) ∧
     ((⟨false, true, false⟩ : PipelineCtl).running = false →
      set_bitrate ⟨4000, 8000, 500⟩ ⟨false, true, false⟩ 12000 =
        BitrateAction.noop) ∧
     ((false && (⟨"rtsp://cam", 3000, 0⟩ : RtspConfig).url = "") = false →
      (⟨false, false⟩ : EncodingConfig).passthrough = false →
      set_bitrate ⟨4000, 8000, 500⟩
        ⟨encoder_present_after_build false false ⟨"rtsp://cam", 3000, 0⟩
           ⟨false, false⟩, true,
         is_hw_encode_after_build false false ⟨"rtsp://cam", 3000, 0⟩
           ⟨false, false⟩⟩ 12000 =
        (if false && (⟨false, false⟩ : EncodingConfig).hw_encode then
          BitrateAction.hwSet
            ((clampBitrate ⟨4000, 8000, 500⟩ 12000).toNat * 1000)
         else
          BitrateAction.swSet (clampBitrate ⟨4000, 8000, 500⟩ 12000).toNat))) :=
  ⟨by decide, by decide, by decide,
   c5_set_bitrate_clamped false false ⟨"rtsp://cam", 3000, 0⟩ ⟨false, false⟩
     ⟨4000, 8000, 500⟩ ⟨false, true, false⟩ 12000 true true
     (by decide) (by decide) (by decide)⟩

/-- **C6** (counterexample) — The SSRC counter is a 32-bit atomic: it
does not strictly increase across the `2^32` wrap, and the construction
with index `2^32` receives the same SSRC (42) as the construction with
index 0, although they are distinct constructions. -/
theorem c6_ssrc_counter_wraps_counterexample :
    ssrcOfIndex 0 = 42 ∧ ssrcOfIndex (2 ^ 32) = 42 ∧ (0 : Nat) ≠ 2 ^ 32 ∧
    ssrcCounter (2 ^ 32 - 43) = 2 ^ 32 - 1 ∧
    ssrcCounter (2 ^ 32 - 42) = 0 ∧
    ssrcCounter (2 ^ 32 - 42) < ssrcCounter (2 ^ 32 - 43) := by
  decide

/-- **C6** (amended) — The SSRC counter starts at 42 and increments per
construction modulo `2^32`; any two sessions whose construction indices
differ by fewer than `2^32` — in particular any two concurrently live
sessions among fewer than `2^32` total constructions — have distinct
SSRCs. -/
theorem c6_ssrc_distinct_within_window (i j : Nat) (hij : i < j)
    (hwin : j - i < 2 ^ 32) :
    ssrcOfIndex 0 = 42 ∧ ssrcOfIndex i ≠ ssrcOfIndex j := by
  refine ⟨by decide, fun heq => ?_⟩
  unfold ssrcOfIndex at heq
  have hmod : (42 + i) ≡ (42 + j) [MOD 2 ^ 32] := heq
  have hle : 42 + i ≤ 42 + j := by omega
  have hdvd : (2 ^ 32 : Nat) ∣ (42 + j) - (42 + i) :=
    (Nat.modEq_iff_dvd' hle).mp hmod
  have hsub : (42 + j) - (42 + i) = j - i := by omega
  rw [hsub] at hdvd
  have hpos : 0 < j - i := by omega
  have hge := Nat.le_of_dvd hpos hdvd
  omega

/-- Witness for the amended C6 at construction indices 0 and 1. -/
theorem c6_ssrc_distinct_within_window_witness :
    0 < 1 ∧ 1 - 0 < 2 ^ 32 ∧
    (ssrcOfIndex 0 = 42 ∧ ssrcOfIndex 0 ≠ ssrcOfIndex 1) :=
  ⟨by decide, by decide,
   c6_ssrc_distinct_within_window 0 1 (by decide) (by decide)⟩

end StreamServer
